import Mathlib

/-!
Verification of the stream-abstraction core of `scl_multiset_compression`
(`src/core/data_stream.py`): the `DataStream` base class with its derived
block operations, the `ListDataStream` in-memory backend, the file-backed
`FileDataStream` / `TextFileDataStream` backends with their scoped
resource lifecycle, and the declared-but-empty `Uint8FileDataStream`.

The Python code is shallowly embedded: each method becomes a pure Lean
function on an explicit state record; methods that can raise in Python
return `Except PyErr`; machine-level file handles are modelled as a
character buffer with a position, a mode string and an open flag plus a
counter of close calls, so that the resource-lifecycle claims are
observable.
-/

namespace SCLStream

/-- Python exception kinds that the embedded code can raise.
`attributeError` models touching `self.file_obj` before `__enter__` set it;
`valueError` models an I/O operation on a closed file object;
`unsupportedOperation` models reading a write-mode handle or writing a
read-mode handle; `typeError` models the abstract-class instantiation
failure raised by `abc`; `resourceError` models an OS-level failure
surfacing from a read/write/seek/close; `invalidInput` models a rejected
constructor argument; `notImplementedError` models `NotImplementedError`. -/
inductive PyErr where
  | attributeError
  | valueError
  | unsupportedOperation
  | typeError
  | resourceError
  | invalidInput
  | notImplementedError
deriving DecidableEq

/-- Modelled from the spec: the `DataBlock` class lives in
`core/data_block.py`, which is not part of the sources; the spec only
requires a Block to be constructible from an ordered sequence of symbols
(`data_list`) and to expose the count of contained symbols (`size`),
iterable in original order for `write_block`. -/
structure DataBlock (α : Type) where
  data_list : List α
deriving DecidableEq

/-- Modelled from the spec: `size` is the count of contained symbols. -/
def DataBlock.size {α : Type} (b : DataBlock α) : Nat :=
  b.data_list.length

/-- The loop body of `DataStream.get_block`: invoke `get_symbol` up to
`block_size` times, breaking the first time it yields `None`, accumulating
the symbols in order (`data_list.append`). Generic in the backend: `getSym`
is the `get_symbol` of the backend as a state transformer. -/
def getBlockGo {σ α : Type} (getSym : σ → Option α × σ) :
    Nat → σ → List α → List α × σ
  | 0, s, acc => (acc, s)
  | n + 1, s, acc =>
    match getSym s with
    | (none, s1) => (acc, s1)
    | (some a, s1) => getBlockGo getSym n s1 (acc ++ [a])

/-- Embeds `DataStream.get_block`: run the accumulation loop; if `data_list` is
empty return `None` (the end-of-stream sentinel), else wrap the collected
symbols in a `DataBlock`. -/
def getBlockD {σ α : Type} (getSym : σ → Option α × σ) (block_size : Nat)
    (s : σ) : Option (DataBlock α) × σ :=
  let (data_list, s1) := getBlockGo getSym block_size s []
  if data_list.isEmpty then (none, s1) else (some ⟨data_list⟩, s1)

/-- Embeds `DataStream.write_block`: iterate the symbols of the block in order,
calling the backend `write_symbol` on each. -/
def writeBlockD {σ α : Type} (writeSym : σ → α → σ) (b : DataBlock α)
    (s : σ) : σ :=
  b.data_list.foldl writeSym s

/-- Instrumentation used to observe how often a `get_symbol` primitive is
invoked by the derived block loop: the state is paired with a call
counter that every invocation bumps. -/
def countingSym {σ α : Type} (getSym : σ → Option α × σ) :
    σ × Nat → Option α × (σ × Nat) :=
  fun p =>
    let (r, s1) := getSym p.1
    (r, (s1, p.2 + 1))

/-- Embeds `ListDataStream`: a wrapper around a list of symbols (`input_list`)
with a read cursor (`current_ind`). -/
structure ListDataStream (α : Type) where
  input_list : List α
  current_ind : Nat
deriving DecidableEq

/-- Embeds `ListDataStream.__init__`: store the input list and reset the cursor
(the constructor calls `self.reset()`). -/
def ListDataStream.init {α : Type} (input_list : List α) :
    ListDataStream α :=
  { input_list := input_list, current_ind := 0 }

/-- Embeds `ListDataStream.reset`: set `current_ind` to 0. -/
def ListDataStream.reset {α : Type} (s : ListDataStream α) :
    ListDataStream α :=
  { s with current_ind := 0 }

/-- Embeds `ListDataStream.get_symbol`: the source returns `None` when
`current_ind >= len(input_list)`; otherwise it returns
`input_list[current_ind]` and increments `current_ind`. (Stated here with
the complementary in-bounds condition, so the list is indexed only under
the bound.) -/
def ListDataStream.get_symbol {α : Type} (s : ListDataStream α) :
    Option α × ListDataStream α :=
  if h : s.current_ind < s.input_list.length then
    (some (s.input_list.get ⟨s.current_ind, h⟩),
      { s with current_ind := s.current_ind + 1 })
  else
    (none, s)

/-- Embeds `ListDataStream.write_symbol`: append the symbol to the end of
`input_list`; the cursor is not touched. -/
def ListDataStream.write_symbol {α : Type} (s : ListDataStream α) (a : α) :
    ListDataStream α :=
  { s with input_list := s.input_list ++ [a] }

/-- Embeds `ListDataStream.get_block`: the inherited `DataStream.get_block`
instantiated with the `get_symbol` of this backend. -/
def ListDataStream.get_block {α : Type} (block_size : Nat)
    (s : ListDataStream α) : Option (DataBlock α) × ListDataStream α :=
  getBlockD ListDataStream.get_symbol block_size s

/-- Embeds `ListDataStream.write_block`: the inherited `DataStream.write_block`
instantiated with the `write_symbol` of this backend. -/
def ListDataStream.write_block {α : Type} (b : DataBlock α)
    (s : ListDataStream α) : ListDataStream α :=
  writeBlockD ListDataStream.write_symbol b s

/-- Writing several blocks in sequence through `write_block`. -/
def ListDataStream.write_blocks {α : Type} (bs : List (DataBlock α))
    (s : ListDataStream α) : ListDataStream α :=
  bs.foldl (fun st b => ListDataStream.write_block b st) s

/-- Embeds `DataStream.__enter__` (inherited unchanged by `ListDataStream`):
`return self` — no state change of any kind. -/
def ListDataStream.enterScope {α : Type} (s : ListDataStream α) :
    ListDataStream α :=
  s

/-- Embeds `DataStream.__exit__` (inherited unchanged by `ListDataStream`): the
body is `pass` — no state change of any kind. -/
def ListDataStream.exitScope {α : Type} (s : ListDataStream α) :
    ListDataStream α :=
  s

/-- Embeds `ListDataStream.get_symbol` seen through the error monad: the source
method performs no lifecycle or state validation and contains no `raise`,
so as a Python call it always returns normally. -/
def ListDataStream.get_symbolE {α : Type} (s : ListDataStream α) :
    Except PyErr (Option α × ListDataStream α) :=
  .ok s.get_symbol

/-- Embeds `ListDataStream.write_symbol` seen through the error monad: no
validation, no `raise`; always returns normally. -/
def ListDataStream.write_symbolE {α : Type} (s : ListDataStream α)
    (a : α) : Except PyErr (ListDataStream α) :=
  .ok (s.write_symbol a)

/-- Embeds `ListDataStream.reset` seen through the error monad: no validation,
no `raise`; always returns normally. -/
def ListDataStream.resetE {α : Type} (s : ListDataStream α) :
    Except PyErr (ListDataStream α) :=
  .ok s.reset

/-- Repeated application of a state transformer (used to state
idempotence of `reset`). -/
def applyN {σ : Type} (f : σ → σ) : Nat → σ → σ
  | 0, s => s
  | k + 1, s => applyN f k (f s)

/-- A Python file object as the file backends use it: the character
`content` visible through the handle, the current `pos` (the file
offset), the `mode` string it was opened with, and whether the handle is
still open. The model covers the two modes the repository opens files
with: mode r (read from offset 0 over the existing content) and mode w
(truncate). -/
structure FileObj where
  content : List Char
  pos : Nat
  mode : String
  isOpen : Bool
deriving DecidableEq

/-- Embeds the `FileDataStream` instance state. `file_obj = none` models the phase
before `__enter__` has run, when the attribute does not exist yet.
`closes` counts the `close()` calls issued on the owned handle, so that
the exactly-once release guarantee is observable. -/
structure FileDataStream where
  file_path : String
  permissions : String
  file_obj : Option FileObj
  closes : Nat
deriving DecidableEq

/-- Embeds `FileDataStream.__init__`: store `file_path` and `permissions`
verbatim; nothing is validated and no file is touched (the docstring
notes that other Python file permissions can also be used). -/
def FileDataStream.init (file_path : String) (permissions : String) :
    FileDataStream :=
  { file_path := file_path, permissions := permissions, file_obj := none,
    closes := 0 }

/-- Embeds `FileDataStream.__init__` with the default argument
permissions set to read mode. -/
def FileDataStream.initDefault (file_path : String) : FileDataStream :=
  FileDataStream.init file_path "r"

/-- Follows the spec text, for comparison with `FileDataStream.init`:
a constructor whose mode flag is restricted to exactly one of
read (r) or write (w), rejecting every other open flag at
construction with an InvalidInput condition. -/
def FileDataStream.initSpecModeRestricted (file_path : String)
    (permissions : String) : Except PyErr FileDataStream :=
  if permissions = "r" ∨ permissions = "w" then
    .ok (FileDataStream.init file_path permissions)
  else
    .error .invalidInput

/-- Embeds `FileDataStream.__enter__`:
`self.file_obj = open(self.file_path, self.permissions); return self`.
The surrounding filesystem is abstracted as the current content `fs` of
the target path; opening in w mode truncates it, opening in r mode sees
it, and either way the offset starts at 0 with a freshly open handle. -/
def FileDataStream.enterScope (fs : List Char) (s : FileDataStream) :
    FileDataStream :=
  { s with
    file_obj := some
      ({ content := if s.permissions = "w" then [] else fs, pos := 0,
         mode := s.permissions, isOpen := true }) }

/-- Embeds `FileDataStream.__exit__`: `self.file_obj.close()`. Closing marks the
handle closed and bumps the close counter. (The `none` branch — exiting
before any scope entry — is unreachable under the `with` protocol, which
only runs `__exit__` after a successful `__enter__`.) -/
def FileDataStream.exitScope (s : FileDataStream) : FileDataStream :=
  match s.file_obj with
  | some f =>
    { s with
      file_obj := some ({ f with isOpen := false }),
      closes := s.closes + 1 }
  | none => s

/-- Embeds `FileDataStream.reset`: `self.file_obj.seek(0)`. Before `__enter__`
the attribute is missing (`AttributeError`); seeking a closed handle is a
`ValueError`; otherwise the offset is rewound to 0 and nothing else — in
particular not the handle — changes. -/
def FileDataStream.reset (s : FileDataStream) :
    Except PyErr FileDataStream :=
  match s.file_obj with
  | none => .error .attributeError
  | some f =>
    if f.isOpen then .ok { s with file_obj := some ({ f with pos := 0 }) }
    else .error .valueError

/-- Embeds `reset` chained `k` times through the error monad. -/
def FileDataStream.resetN : Nat → FileDataStream → Except PyErr FileDataStream
  | 0, s => .ok s
  | k + 1, s => (FileDataStream.reset s).bind (FileDataStream.resetN k)

/-- Embeds `TextFileDataStream.get_symbol`: `s = self.file_obj.read(1)`; returns
`None` when the read yields nothing (end of file). A missing attribute is
an `AttributeError`, a closed handle a `ValueError`, and a handle not
opened for reading an UnsupportedOperation. -/
def TextFileDataStream.get_symbol (s : FileDataStream) :
    Except PyErr (Option Char × FileDataStream) :=
  match s.file_obj with
  | none => .error .attributeError
  | some f =>
    if f.isOpen = false then .error .valueError
    else if f.mode ≠ "r" then .error .unsupportedOperation
    else if h : f.pos < f.content.length then
      .ok (some (f.content.get ⟨f.pos, h⟩),
        { s with file_obj := some ({ f with pos := f.pos + 1 }) })
    else .ok (none, s)

/-- Embeds `TextFileDataStream.write_symbol`: `self.file_obj.write(s)` — write
one character at the current offset and advance it. Error channel as for
`get_symbol`, with writing requiring a write-mode handle. -/
def TextFileDataStream.write_symbol (s : FileDataStream) (c : Char) :
    Except PyErr FileDataStream :=
  match s.file_obj with
  | none => .error .attributeError
  | some f =>
    if f.isOpen = false then .error .valueError
    else if f.mode ≠ "w" then .error .unsupportedOperation
    else
      .ok { s with
        file_obj := some ({ f with
          content := f.content.take f.pos ++ [c] ++ f.content.drop (f.pos + 1),
          pos := f.pos + 1 }) }

/-- The `with` statement of Python on a `FileDataStream`:
`__enter__` runs first, then the body, and `__exit__` runs exactly once
afterwards, whether the body returned normally or is propagating an
error. The body is any computation on the stream that reports its
outcome alongside the state it leaves behind. -/
def withScope {β : Type} (fs : List Char)
    (body : FileDataStream → Except PyErr β × FileDataStream)
    (s0 : FileDataStream) : Except PyErr β × FileDataStream :=
  let s1 := FileDataStream.enterScope fs s0
  let res := body s1
  (res.1, FileDataStream.exitScope res.2)

/-- Auxiliary loop of `writeBlockFaulty`: write the symbols one by one via
`TextFileDataStream.write_symbol`, except that the OS raises a
ResourceError once the fault budget hits zero (modelling a write failure
partway through the block). -/
def writeBlockFaultyGo : Nat → List Char → FileDataStream →
    Except PyErr Unit × FileDataStream
  | _, [], s => (.ok (), s)
  | 0, _ :: _, s => (.error .resourceError, s)
  | k + 1, c :: rest, s =>
    match TextFileDataStream.write_symbol s c with
    | .error e => (.error e, s)
    | .ok s1 => writeBlockFaultyGo k rest s1

/-- Embeds `DataStream.write_block` run against a file handle whose `failAt`-th
write raises a ResourceError: the loop `for s in data_block.data_list:
write_symbol(s)` stops where the exception is raised, leaving the
already-written symbols in place. -/
def writeBlockFaulty (failAt : Nat) (b : DataBlock Char)
    (s : FileDataStream) : Except PyErr Unit × FileDataStream :=
  writeBlockFaultyGo failAt b.data_list s

/-- Reading a `ListDataStream` back in full: call `get_block n`
repeatedly, concatenating the returned blocks, until the end-of-stream
sentinel comes back. `fuel` bounds the number of calls (each productive
call consumes at least one symbol, so any fuel above the number of
remaining symbols completes the read). -/
def ListDataStream.read_all {α : Type} (n : Nat) :
    Nat → ListDataStream α → List α
  | 0, _ => []
  | fuel + 1, s =>
    match ListDataStream.get_block n s with
    | (none, _) => []
    | (some b, s1) => b.data_list ++ ListDataStream.read_all n fuel s1

/-- The methods of the stream class hierarchy, for the class-table model
of `Uint8FileDataStream`. `ctor` is `__init__`, `scopeEnter`/`scopeExit`
are `__enter__`/`__exit__`. -/
inductive MethodName where
  | ctor
  | scopeEnter
  | scopeExit
  | reset
  | get_symbol
  | write_symbol
  | get_block
  | write_block
deriving DecidableEq

/-- The classes a method of `Uint8FileDataStream` can resolve to. -/
inductive ClassOrigin where
  | dataStream
  | fileDataStream
  | uint8FileDataStream
deriving DecidableEq

/-- The methods `DataStream` marks `@abc.abstractmethod`: `reset`,
`get_symbol`, `write_symbol`. -/
def dataStreamAbstractMethods : List MethodName :=
  [.reset, .get_symbol, .write_symbol]

/-- The concrete methods `DataStream` defines: `get_block`,
`write_block`, `__enter__`, `__exit__`. -/
def dataStreamConcreteMethods : List MethodName :=
  [.get_block, .write_block, .scopeEnter, .scopeExit]

/-- The methods `FileDataStream` defines: `__init__`, `__enter__`,
`__exit__`, `reset`. -/
def fileDataStreamMethods : List MethodName :=
  [.ctor, .scopeEnter, .scopeExit, .reset]

/-- The methods `Uint8FileDataStream` defines: none — its class body is
`pass` (with a FIXME noting it still needs implementing). -/
def uint8FileDataStreamMethods : List MethodName :=
  []

/-- Python method resolution for `Uint8FileDataStream`: its own
definitions first, then `FileDataStream`, then the concrete methods of
`DataStream`; `none` when only the abstract placeholder remains. -/
def uint8Resolve (m : MethodName) : Option ClassOrigin :=
  if m ∈ uint8FileDataStreamMethods then some .uint8FileDataStream
  else if m ∈ fileDataStreamMethods then some .fileDataStream
  else if m ∈ dataStreamConcreteMethods then some .dataStream
  else none

/-- The abstract methods `Uint8FileDataStream` leaves without a concrete
implementation anywhere in its resolution order. -/
def uint8UnimplementedAbstract : List MethodName :=
  dataStreamAbstractMethods.filter (fun m => (uint8Resolve m).isNone)

/-- Instantiating `Uint8FileDataStream`: `abc` rejects instantiation of a
class that still has unimplemented abstract methods by raising
`TypeError`; only a class with none could be constructed. -/
def instantiateUint8 : Except PyErr Unit :=
  if uint8UnimplementedAbstract.isEmpty then .ok () else .error .typeError

/-- The `ListDataStream` states reachable from construction through the
stream operations. -/
inductive Reachable {α : Type} : ListDataStream α → Prop where
  | init (l : List α) : Reachable (ListDataStream.init l)
  | get_symbol_step {s : ListDataStream α} :
      Reachable s → Reachable s.get_symbol.2
  | get_block_step {s : ListDataStream α} (n : Nat) :
      Reachable s → Reachable (ListDataStream.get_block n s).2
  | write_symbol_step {s : ListDataStream α} (a : α) :
      Reachable s → Reachable (s.write_symbol a)
  | write_block_step {s : ListDataStream α} (b : DataBlock α) :
      Reachable s → Reachable (ListDataStream.write_block b s)
  | reset_step {s : ListDataStream α} :
      Reachable s → Reachable s.reset

lemma getBlockGo_list {α : Type} (n : Nat) :
    ∀ (ind : Nat) (l : List α) (acc : List α),
      getBlockGo ListDataStream.get_symbol n ⟨l, ind⟩ acc =
        (acc ++ (l.drop ind).take n,
          ⟨l, ind + min n (l.length - ind)⟩) := by
  induction n with
  | zero =>
    intro ind l acc
    simp [getBlockGo]
  | succ n ih =>
    intro ind l acc
    by_cases h : ind < l.length
    · have hstep : ListDataStream.get_symbol (⟨l, ind⟩ : ListDataStream α) =
          (some (l.get ⟨ind, h⟩), ⟨l, ind + 1⟩) := by
        simp [ListDataStream.get_symbol, h]
      have hd : l.drop ind = l.get ⟨ind, h⟩ :: l.drop (ind + 1) :=
        List.drop_eq_getElem_cons h
      simp only [getBlockGo, hstep]
      rw [ih (ind + 1) l (acc ++ [l.get ⟨ind, h⟩])]
      rw [hd]
      simp only [List.take_succ_cons, Prod.mk.injEq, ListDataStream.mk.injEq,
        List.append_assoc, List.singleton_append]
      exact ⟨trivial, trivial, by omega⟩
    · have hstep : ListDataStream.get_symbol (⟨l, ind⟩ : ListDataStream α) =
          (none, ⟨l, ind⟩) := by
        simp [ListDataStream.get_symbol, h]
      have hnil : l.drop ind = [] := List.drop_eq_nil_of_le (by omega)
      have hmin : min (n + 1) (l.length - ind) = 0 := by omega
      simp [getBlockGo, hstep, hnil, hmin]

lemma get_block_list {α : Type} (n : Nat) (l : List α) (ind : Nat) :
    ListDataStream.get_block n ⟨l, ind⟩ =
      (if ((l.drop ind).take n).isEmpty then none
        else some ⟨(l.drop ind).take n⟩,
        ⟨l, ind + min n (l.length - ind)⟩) := by
  unfold ListDataStream.get_block getBlockD
  rw [getBlockGo_list n ind l []]
  simp only [List.nil_append]
  by_cases hc : ((l.drop ind).take n).isEmpty = true <;> simp [hc]

lemma foldl_write_symbol {α : Type} :
    ∀ (xs : List α) (s : ListDataStream α),
      xs.foldl ListDataStream.write_symbol s =
        ⟨s.input_list ++ xs, s.current_ind⟩ := by
  intro xs
  induction xs with
  | nil =>
    intro s
    simp
  | cons a t ih =>
    intro s
    rw [List.foldl_cons, ih]
    simp [ListDataStream.write_symbol]

lemma write_block_list {α : Type} (b : DataBlock α) (s : ListDataStream α) :
    ListDataStream.write_block b s =
      ⟨s.input_list ++ b.data_list, s.current_ind⟩ :=
  foldl_write_symbol b.data_list s

lemma write_blocks_list {α : Type} :
    ∀ (bs : List (DataBlock α)) (s : ListDataStream α),
      ListDataStream.write_blocks bs s =
        ⟨s.input_list ++ (bs.map DataBlock.data_list).flatten,
          s.current_ind⟩ := by
  intro bs
  induction bs with
  | nil =>
    intro s
    simp [ListDataStream.write_blocks]
  | cons b t ih =>
    intro s
    have hstep : ListDataStream.write_blocks (b :: t) s =
        ListDataStream.write_blocks t (ListDataStream.write_block b s) := rfl
    rw [hstep, ih, write_block_list]
    simp

lemma read_all_drop {α : Type} (n : Nat) (hn : 1 ≤ n) :
    ∀ (fuel : Nat) (ind : Nat) (l : List α), l.length - ind < fuel →
      ListDataStream.read_all n fuel ⟨l, ind⟩ = l.drop ind := by
  intro fuel
  induction fuel with
  | zero =>
    intro ind l hfuel
    omega
  | succ fuel ih =>
    intro ind l hfuel
    by_cases h : ind < l.length
    · have hne : ((l.drop ind).take n).isEmpty = false := by
        have h2 : ((l.drop ind).take n).length = min n (l.length - ind) := by
          rw [List.length_take, List.length_drop]
        by_contra hb
        have hb2 : ((l.drop ind).take n).isEmpty = true := by
          revert hb
          cases ((l.drop ind).take n).isEmpty <;> simp
        rw [List.isEmpty_iff_length_eq_zero, h2] at hb2
        omega
      rw [ListDataStream.read_all, get_block_list, hne]
      simp only [Bool.false_eq_true, if_false]
      rw [ih (ind + min n (l.length - ind)) l (by omega)]
      have htake : (l.drop ind).take n =
          (l.drop ind).take (min n (l.length - ind)) := by
        rcases Nat.le_total n (l.length - ind) with hle | hle
        · rw [Nat.min_eq_left hle]
        · have e1 : (l.drop ind).take n = l.drop ind :=
            List.take_of_length_le (by rw [List.length_drop]; omega)
          have e2 : (l.drop ind).take (min n (l.length - ind)) = l.drop ind :=
            List.take_of_length_le (by rw [List.length_drop]; omega)
          rw [e1, e2]
      have hdd : l.drop (ind + min n (l.length - ind)) =
          (l.drop ind).drop (min n (l.length - ind)) := by
        rw [List.drop_drop]
      rw [htake, hdd, List.take_append_drop]
    · have hnil : l.drop ind = [] := List.drop_eq_nil_of_le (by omega)
      rw [ListDataStream.read_all, get_block_list]
      simp [hnil]

lemma get_symbol_snd_le {α : Type} (s : ListDataStream α)
    (h : s.current_ind ≤ s.input_list.length) :
    s.get_symbol.2.current_ind ≤ s.get_symbol.2.input_list.length := by
  by_cases hlt : s.current_ind < s.input_list.length
  · simp [ListDataStream.get_symbol, hlt]
    omega
  · simp [ListDataStream.get_symbol, hlt]
    exact h

lemma get_symbol_fst_some {α : Type} (s : ListDataStream α)
    (h : s.get_symbol.1.isSome = true) :
    s.current_ind < s.input_list.length ∧
      s.input_list.get? s.current_ind = s.get_symbol.1 := by
  by_cases hlt : s.current_ind < s.input_list.length
  · refine ⟨hlt, ?_⟩
    simp [ListDataStream.get_symbol, hlt, List.get?_eq_get hlt]
  · simp [ListDataStream.get_symbol, hlt] at h

lemma reachable_inv {α : Type} :
    ∀ {s : ListDataStream α}, Reachable s →
      s.current_ind ≤ s.input_list.length := by
  intro s h
  induction h with
  | init l => exact Nat.zero_le _
  | @get_symbol_step t _ ih => exact get_symbol_snd_le t ih
  | @get_block_step t n _ ih =>
    obtain ⟨l, ind⟩ := t
    rw [get_block_list]
    simp only at ih ⊢
    omega
  | @write_symbol_step t a _ ih =>
    simp [ListDataStream.write_symbol]
    omega
  | @write_block_step t b _ ih =>
    rw [write_block_list]
    simp only [List.length_append]
    omega
  | @reset_step t _ _ => exact Nat.zero_le _

lemma applyN_reset {α : Type} :
    ∀ (k : Nat) (s : ListDataStream α), 1 ≤ k →
      applyN ListDataStream.reset k s = ListDataStream.reset s := by
  intro k
  induction k with
  | zero =>
    intro s h
    omega
  | succ k ih =>
    intro s _
    by_cases hk : 1 ≤ k
    · have hstep : applyN ListDataStream.reset (k + 1) s =
          applyN ListDataStream.reset k (ListDataStream.reset s) := rfl
      rw [hstep, ih _ hk]
      rfl
    · have hk0 : k = 0 := by omega
      subst hk0
      rfl

lemma fileReset_open {s : FileDataStream} {f : FileObj}
    (hf : s.file_obj = some f) (ho : f.isOpen = true) :
    FileDataStream.reset s =
      .ok ({ s with file_obj := some ({ f with pos := 0 }) }) := by
  unfold FileDataStream.reset
  rw [hf]
  simp [ho]

lemma fileReset_fixed {s : FileDataStream} {f : FileObj}
    (ho : f.isOpen = true) :
    FileDataStream.reset ({ s with file_obj := some ({ f with pos := 0 }) }) =
      .ok ({ s with file_obj := some ({ f with pos := 0 }) }) := by
  unfold FileDataStream.reset
  simp [ho]

lemma fileResetN_fixedpoint {s1 : FileDataStream}
    (hfix : FileDataStream.reset s1 = .ok s1) :
    ∀ k, FileDataStream.resetN k s1 = .ok s1 := by
  intro k
  induction k with
  | zero => rfl
  | succ k ih =>
    show (FileDataStream.reset s1).bind (FileDataStream.resetN k) = .ok s1
    rw [hfix]
    exact ih

lemma fileResetN_open {s : FileDataStream} {f : FileObj}
    (hf : s.file_obj = some f) (ho : f.isOpen = true) :
    ∀ k, 1 ≤ k → FileDataStream.resetN k s = FileDataStream.reset s := by
  intro k hk
  obtain ⟨j, rfl⟩ : ∃ j, k = j + 1 := ⟨k - 1, by omega⟩
  show (FileDataStream.reset s).bind (FileDataStream.resetN j) =
    FileDataStream.reset s
  rw [fileReset_open hf ho]
  show FileDataStream.resetN j
      ({ s with file_obj := some ({ f with pos := 0 }) }) =
    .ok ({ s with file_obj := some ({ f with pos := 0 }) })
  exact fileResetN_fixedpoint (fileReset_fixed ho) j

lemma getBlockD_eq {σ α : Type} (getSym : σ → Option α × σ) (m : Nat)
    (s : σ) :
    getBlockD getSym m s =
      (if ((getBlockGo getSym m s []).1).isEmpty then
        ((none : Option (DataBlock α)), (getBlockGo getSym m s []).2)
      else (some ⟨(getBlockGo getSym m s []).1⟩,
        (getBlockGo getSym m s []).2)) := rfl

lemma getBlockD_some_size {σ α : Type} (getSym : σ → Option α × σ)
    (m : Nat) (s : σ) (b : DataBlock α) (s1 : σ)
    (h : getBlockD getSym m s = (some b, s1)) : 1 ≤ b.size := by
  rw [getBlockD_eq] at h
  by_cases hc : ((getBlockGo getSym m s []).1).isEmpty = true
  · rw [if_pos hc] at h
    exact absurd (congrArg Prod.fst h) (by simp)
  · rw [if_neg hc] at h
    have hb : b = ⟨(getBlockGo getSym m s []).1⟩ := by
      have := congrArg Prod.fst h
      simp only at this
      exact (Option.some.injEq _ _).mp this.symm
    subst hb
    have hlen : ((getBlockGo getSym m s []).1).length ≠ 0 := by
      intro h0
      exact hc (by rw [List.isEmpty_iff_length_eq_zero]; exact h0)
    show 1 ≤ ((getBlockGo getSym m s []).1).length
    omega

/-- Claim C1: for a `ListDataStream` over list `l` with cursor `ind`
(so `r = l.length - ind` symbols remain) and any requested size `n ≥ 1`:
when `r ≥ 1`, `get_block n` returns a block of size exactly `min n r`
holding the next symbols in stream order (the first `n` symbols of the
remaining suffix); when `r = 0` it returns the end-of-stream sentinel
with the stream unchanged; and no call to `get_block` — whatever the
requested size — ever returns a size-0 block. -/
theorem get_block_min_size_or_sentinel {α : Type} (l : List α)
    (ind n : Nat) (hn : 1 ≤ n) :
    (1 ≤ l.length - ind →
      ListDataStream.get_block n ⟨l, ind⟩ =
        (some ⟨(l.drop ind).take n⟩,
          ⟨l, ind + min n (l.length - ind)⟩) ∧
      ((l.drop ind).take n).length = min n (l.length - ind)) ∧
    (l.length - ind = 0 →
      ListDataStream.get_block n ⟨l, ind⟩ = (none, ⟨l, ind⟩)) ∧
    (∀ (m : Nat) (b : DataBlock α) (s1 : ListDataStream α),
      ListDataStream.get_block m ⟨l, ind⟩ = (some b, s1) → 1 ≤ b.size) := by
  refine ⟨?_, ?_, ?_⟩
  · intro hr
    have hne : ((l.drop ind).take n).isEmpty = false := by
      have h2 : ((l.drop ind).take n).length = min n (l.length - ind) := by
        rw [List.length_take, List.length_drop]
      by_contra hb
      have hb2 : ((l.drop ind).take n).isEmpty = true := by
        revert hb
        cases ((l.drop ind).take n).isEmpty <;> simp
      rw [List.isEmpty_iff_length_eq_zero, h2] at hb2
      omega
    refine ⟨?_, by rw [List.length_take, List.length_drop]⟩
    rw [get_block_list, hne]
    simp
  · intro hr0
    have hnil : l.drop ind = [] := List.drop_eq_nil_of_le (by omega)
    have hmin : min n (l.length - ind) = 0 := by omega
    rw [get_block_list]
    simp [hnil, hmin]
  · intro m b s1 h
    exact getBlockD_some_size ListDataStream.get_symbol m ⟨l, ind⟩ b s1 h

/-- Witness for C1: the theorem applied at the concrete stream
`[10, 20, 30]`; at cursor 0 with `n = 2` it yields the size-2 block
`[10, 20]` and advances the cursor by `min 2 3 = 2`, and at cursor 3
(nothing remaining) it yields the sentinel. -/
theorem get_block_min_size_or_sentinel_witness :
    ListDataStream.get_block 2 (⟨[10, 20, 30], 0⟩ : ListDataStream Nat) =
      (some ⟨[10, 20]⟩, ⟨[10, 20, 30], 0 + min 2 (3 - 0)⟩) ∧
    (1 : Nat) ≤ (⟨[10, 20]⟩ : DataBlock Nat).size ∧
    ListDataStream.get_block 2 (⟨[10, 20, 30], 3⟩ : ListDataStream Nat) =
      (none, ⟨[10, 20, 30], 3⟩) := by
  have h1 := (get_block_min_size_or_sentinel [10, 20, 30] 0 2 (by omega)).1
    (by decide)
  have h2 := (get_block_min_size_or_sentinel [10, 20, 30] 3 2 (by omega)).2.1
    (by decide)
  refine ⟨?_, ?_, h2⟩
  · have := h1.1
    simpa using this
  · exact (get_block_min_size_or_sentinel [10, 20, 30] 0 2 (by omega)).2.2 2
      ⟨[10, 20]⟩ ⟨[10, 20, 30], 2⟩ (by rw [get_block_list]; rfl)

/-- Claim C2: round-trip — writing any finite sequence of symbols (as
one or more blocks, in order) to a fresh `ListDataStream` via
`write_block`, then calling `reset`, then reading everything back via
repeated `get_block n` calls (any fixed `n ≥ 1`) until the sentinel is
returned, yields exactly the original symbols in the original order. -/
theorem write_then_read_roundtrip {α : Type} (bs : List (DataBlock α))
    (n : Nat) (hn : 1 ≤ n) :
    ListDataStream.read_all n
      ((bs.map DataBlock.data_list).flatten.length + 1)
      (ListDataStream.reset
        (ListDataStream.write_blocks bs (ListDataStream.init []))) =
      (bs.map DataBlock.data_list).flatten := by
  rw [write_blocks_list]
  have hs : ListDataStream.reset
      (⟨(ListDataStream.init ([] : List α)).input_list ++
          (bs.map DataBlock.data_list).flatten,
        (ListDataStream.init ([] : List α)).current_ind⟩ :
        ListDataStream α) =
      ⟨(bs.map DataBlock.data_list).flatten, 0⟩ := rfl
  rw [hs]
  have := read_all_drop n hn
    ((bs.map DataBlock.data_list).flatten.length + 1) 0
    (bs.map DataBlock.data_list).flatten (by omega)
  simpa using this

/-- Witness for C2: the theorem applied to the two concrete blocks
`[1, 2]` and `[3]` read back with `n = 2`. -/
theorem write_then_read_roundtrip_witness :
    ListDataStream.read_all 2 4
      (ListDataStream.reset
        (ListDataStream.write_blocks
          [⟨[1, 2]⟩, ⟨[3]⟩] (ListDataStream.init ([] : List Nat)))) =
      [1, 2, 3] := by
  have h := write_then_read_roundtrip [(⟨[1, 2]⟩ : DataBlock Nat), ⟨[3]⟩]
    2 (by omega)
  simpa using h

/-- Claim C7: `ListDataStream.write_symbol` appends at the tail
regardless of the cursor: the backing list becomes the old list with the
symbol appended at the end (so every pre-existing element — in
particular every element at an index at or before the cursor — is
unchanged, as the old list is exactly the prefix of the new one), and
the cursor itself is untouched, so subsequent reads still proceed from
it. -/
theorem write_symbol_appends_at_tail {α : Type} (s : ListDataStream α)
    (a : α) :
    (s.write_symbol a).input_list = s.input_list ++ [a] ∧
    (s.write_symbol a).input_list.take s.input_list.length =
      s.input_list ∧
    (s.write_symbol a).current_ind = s.current_ind := by
  refine ⟨rfl, ?_, rfl⟩
  show (s.input_list ++ [a]).take s.input_list.length = s.input_list
  simp

/-- Claim C8: `get_block 0` returns the end-of-stream sentinel
immediately with the state untouched, for every backend state — the
symbol-fetch loop never runs, so `get_symbol` is never invoked (the
instrumented call counter stays at zero) and no symbol is consumed; in
particular a `ListDataStream` keeps its cursor and backing list. -/
theorem get_block_zero_sentinel {σ α : Type} (getSym : σ → Option α × σ)
    (s : σ) (ls : ListDataStream α) :
    getBlockD getSym 0 s = (none, s) ∧
    (getBlockD (countingSym getSym) 0 (s, 0)).2.2 = 0 ∧
    ListDataStream.get_block 0 ls = (none, ls) := ⟨rfl, rfl, rfl⟩

/-- Claim C9: `reset` is idempotent with respect to subsequent reads.
For every `ListDataStream` and every `k ≥ 1`, resetting `k` times equals
resetting once, which is exactly the freshly constructed state over the
same backing list (the state read immediately after opening), so the
first symbol read agrees with reading right after construction. For an
open file-backed stream, `resetN k` equals a single `reset`, which only
rewinds the offset of the owned handle to 0: the handle stays present
and open and the close counter is untouched — the resource is neither
released nor re-acquired. -/
theorem reset_idempotent_reads {α : Type} (s : ListDataStream α)
    (k : Nat) (hk : 1 ≤ k) (fds : FileDataStream) (f : FileObj)
    (hf : fds.file_obj = some f) (ho : f.isOpen = true) :
    applyN ListDataStream.reset k s = ListDataStream.reset s ∧
    ListDataStream.reset s = ListDataStream.init s.input_list ∧
    (applyN ListDataStream.reset k s).get_symbol.1 =
      (ListDataStream.init s.input_list).get_symbol.1 ∧
    FileDataStream.resetN k fds = FileDataStream.reset fds ∧
    FileDataStream.reset fds =
      .ok ({ fds with file_obj := some ({ f with pos := 0 }) }) ∧
    ({ fds with file_obj := some ({ f with pos := 0 }) } :
      FileDataStream).closes = fds.closes ∧
    ({ f with pos := 0 } : FileObj).isOpen = true := by
  refine ⟨applyN_reset k s hk, rfl, ?_, fileResetN_open hf ho k hk,
    fileReset_open hf ho, rfl, ho⟩
  rw [applyN_reset k s hk]
  rfl

/-- Witness for C9: the theorem applied at the concrete list stream
`⟨[3, 4], cursor 1⟩` with `k = 2` and at a concrete open read-mode file
stream. -/
theorem reset_idempotent_reads_witness :
    applyN ListDataStream.reset 2 (⟨[3, 4], 1⟩ : ListDataStream Nat) =
      ListDataStream.reset ⟨[3, 4], 1⟩ ∧
    FileDataStream.resetN 2
        (FileDataStream.enterScope ['x'] (FileDataStream.init "p" "r")) =
      FileDataStream.reset
        (FileDataStream.enterScope ['x'] (FileDataStream.init "p" "r")) := by
  have h := reset_idempotent_reads (⟨[3, 4], 1⟩ : ListDataStream Nat) 2
    (by omega)
    (FileDataStream.enterScope ['x'] (FileDataStream.init "p" "r"))
    ⟨['x'], 0, "r", true⟩ (by decide) rfl
  exact ⟨h.1, h.2.2.2.1⟩

/-- Claim C10: cursor invariant — every `ListDataStream` state reachable
from construction through the stream operations (`get_symbol`,
`get_block`, `write_symbol`, `write_block`, `reset`) keeps
`0 ≤ current_ind ≤ input_list.length`, and `get_symbol` yields a symbol
only by an in-bounds read at the cursor: whenever it returns a symbol,
the cursor was strictly below the length and the symbol is the list
entry at the cursor. -/
theorem reachable_cursor_invariant {α : Type} (s : ListDataStream α)
    (h : Reachable s) :
    s.current_ind ≤ s.input_list.length ∧
    (s.get_symbol.1.isSome = true →
      s.current_ind < s.input_list.length ∧
      s.input_list.get? s.current_ind = s.get_symbol.1) :=
  ⟨reachable_inv h, get_symbol_fst_some s⟩

/-- Witness for C10: the theorem applied at the reachable state obtained
by constructing over `[7, 8]` and taking one `get_symbol` step; the
in-bounds part is discharged there too. -/
theorem reachable_cursor_invariant_witness :
    ((ListDataStream.init [7, 8]).get_symbol.2 :
      ListDataStream Nat).current_ind ≤
      ((ListDataStream.init [7, 8]).get_symbol.2 :
        ListDataStream Nat).input_list.length ∧
    ((ListDataStream.init [7, 8]).get_symbol.2 :
      ListDataStream Nat).current_ind <
      ((ListDataStream.init [7, 8]).get_symbol.2 :
        ListDataStream Nat).input_list.length := by
  have h := reachable_cursor_invariant
    ((ListDataStream.init [7, 8]).get_symbol.2 : ListDataStream Nat)
    (Reachable.get_symbol_step (Reachable.init [7, 8]))
  exact ⟨h.1, (h.2 (by decide)).1⟩

/-- Claim C3: the scoped use of a file-backed stream releases the owned
handle exactly once. For every body that neither discards the handle nor
closes it itself (no stream operation does either), running the body
inside the scope bumps the close counter by exactly one and leaves the
handle closed — whether the body returned normally or is propagating an
error — and the outcome of the body, a propagating ResourceError included,
passes through scope exit unmodified. -/
theorem scoped_close_exactly_once {β : Type} (fs : List Char)
    (body : FileDataStream → Except PyErr β × FileDataStream)
    (s0 : FileDataStream)
    (hsome : ((body (FileDataStream.enterScope fs s0)).2).file_obj.isSome
      = true)
    (hnoclose : ((body (FileDataStream.enterScope fs s0)).2).closes =
      (FileDataStream.enterScope fs s0).closes) :
    ((withScope fs body s0).2).closes = s0.closes + 1 ∧
    ((withScope fs body s0).2).file_obj.map FileObj.isOpen = some false ∧
    (withScope fs body s0).1 = (body (FileDataStream.enterScope fs s0)).1
    := by
  cases hfo : ((body (FileDataStream.enterScope fs s0)).2).file_obj with
  | none =>
    rw [hfo] at hsome
    simp at hsome
  | some f =>
    have hen : (FileDataStream.enterScope fs s0).closes = s0.closes := rfl
    have h2 : (withScope fs body s0).2 =
        FileDataStream.exitScope
          ((body (FileDataStream.enterScope fs s0)).2) := rfl
    have h1 : (withScope fs body s0).1 =
        (body (FileDataStream.enterScope fs s0)).1 := rfl
    have hexit : FileDataStream.exitScope
        ((body (FileDataStream.enterScope fs s0)).2) =
        { (body (FileDataStream.enterScope fs s0)).2 with
          file_obj := some ({ f with isOpen := false }),
          closes := ((body (FileDataStream.enterScope fs s0)).2).closes + 1 }
        := by
      unfold FileDataStream.exitScope
      rw [hfo]
    refine ⟨?_, ?_, h1⟩
    · rw [h2, hexit]
      show ((body (FileDataStream.enterScope fs s0)).2).closes + 1 =
        s0.closes + 1
      rw [hnoclose, hen]
    · rw [h2, hexit]
      rfl

/-- Witness for C3: the theorem applied to the concrete scenario the
spec names — `write_block` over the five characters a–e against a
write-mode handle whose third write raises a ResourceError. The handle
is still closed exactly once (the counter goes from 0 to 1) and the
ResourceError propagates out of the scope. -/
theorem scoped_close_exactly_once_witness :
    ((withScope [] (writeBlockFaulty 2 ⟨['a', 'b', 'c', 'd', 'e']⟩)
        (FileDataStream.init "f" "w")).2).closes =
      (FileDataStream.init "f" "w").closes + 1 ∧
    (withScope [] (writeBlockFaulty 2 ⟨['a', 'b', 'c', 'd', 'e']⟩)
      (FileDataStream.init "f" "w")).1 = .error .resourceError := by
  have h := scoped_close_exactly_once []
    (writeBlockFaulty 2 ⟨['a', 'b', 'c', 'd', 'e']⟩)
    (FileDataStream.init "f" "w") (by decide) (by decide)
  refine ⟨h.1, ?_⟩
  rw [h.2.2]
  rfl

/-- Claim C4 counterexample: at the concrete input `ListDataStream [5]`,
`get_symbol` invoked after scope exit succeeds and returns the first
symbol — no InvalidState failure occurs in the Closed phase — and a
file-backed stream whose scope was exited reopens with a live handle
when a new scope is entered on the same instance, so Closed is not
terminal. -/
theorem lifecycle_claim_counterexample :
    (((ListDataStream.init [(5 : Nat)]).enterScope).exitScope).get_symbolE
      = .ok (some 5, ⟨[5], 1⟩) ∧
    ((FileDataStream.enterScope ['a']
        (FileDataStream.exitScope
          (FileDataStream.enterScope ['a']
            (FileDataStream.init "f" "r")))).file_obj.map FileObj.isOpen)
      = some true := by
  constructor
  · rfl
  · rfl

/-- Claim C4 (amended): the code performs no lifecycle-state checking.
`ListDataStream` scope entry and exit are identity operations and its
operations, viewed as Python calls, always return normally — never an
InvalidState failure — in every scope phase. `FileDataStream` operations
before scope entry fail only because the handle attribute is missing
(an AttributeError), and after scope exit only because the handle is
closed (a ValueError), not through a dedicated InvalidState check; and
Closed is not terminal: entering a new scope on the same instance yields
an open handle again. -/
theorem lifecycle_no_state_checking {α : Type} (s : ListDataStream α)
    (a : α) (fds0 : FileDataStream) (h0 : fds0.file_obj = none)
    (fdsC : FileDataStream) (fC : FileObj)
    (hC : fdsC.file_obj = some fC) (hCo : fC.isOpen = false)
    (fds : FileDataStream) (fs : List Char) :
    ListDataStream.enterScope s = s ∧
    ListDataStream.exitScope s = s ∧
    s.get_symbolE = .ok s.get_symbol ∧
    s.write_symbolE a = .ok (s.write_symbol a) ∧
    s.resetE = .ok s.reset ∧
    TextFileDataStream.get_symbol fds0 = .error .attributeError ∧
    FileDataStream.reset fds0 = .error .attributeError ∧
    TextFileDataStream.get_symbol fdsC = .error .valueError ∧
    FileDataStream.reset fdsC = .error .valueError ∧
    ((FileDataStream.enterScope fs (FileDataStream.exitScope fds)).file_obj.map
      FileObj.isOpen) = some true := by
  refine ⟨rfl, rfl, rfl, rfl, rfl, ?_, ?_, ?_, ?_, ?_⟩
  · unfold TextFileDataStream.get_symbol
    rw [h0]
  · unfold FileDataStream.reset
    rw [h0]
  · unfold TextFileDataStream.get_symbol
    rw [hC]
    simp [hCo]
  · unfold FileDataStream.reset
    rw [hC]
    simp [hCo]
  · unfold FileDataStream.enterScope
    simp

/-- Witness for C4 (amended): the theorem applied at concrete inputs —
the list stream `[5]`, a file stream that was never entered (handle
attribute missing), and a file stream whose scope was entered and
exited (handle closed). -/
theorem lifecycle_no_state_checking_witness :
    ListDataStream.enterScope (⟨[5], 0⟩ : ListDataStream Nat) = ⟨[5], 0⟩ ∧
    TextFileDataStream.get_symbol (FileDataStream.init "f" "r") =
      .error .attributeError ∧
    TextFileDataStream.get_symbol
        (FileDataStream.exitScope
          (FileDataStream.enterScope ['a'] (FileDataStream.init "f" "r")))
      = .error .valueError := by
  have h := lifecycle_no_state_checking (⟨[5], 0⟩ : ListDataStream Nat) 9
    (FileDataStream.init "f" "r") rfl
    (FileDataStream.exitScope
      (FileDataStream.enterScope ['a'] (FileDataStream.init "f" "r")))
    ⟨['a'], 0, "r", false⟩ (by decide) rfl
    (FileDataStream.init "f" "r") ['a']
  exact ⟨h.1, h.2.2.2.2.2.1, h.2.2.2.2.2.2.2.1⟩

/-- Claim C5 counterexample: `Uint8FileDataStream` cannot even be
instantiated — the abstract-class machinery rejects construction with a
TypeError (not a NotImplemented condition), since `get_symbol` and
`write_symbol` are still abstract, so no operation is ever invoked on an
instance; and the operations that do resolve on the class resolve to
inherited implementations of its parents (`reset` to `FileDataStream`),
while `get_symbol` has no concrete implementation anywhere. -/
theorem uint8_claim_counterexample :
    instantiateUint8 = .error .typeError ∧
    uint8Resolve .reset = some .fileDataStream ∧
    uint8Resolve .get_symbol = none := ⟨rfl, rfl, rfl⟩

/-- Claim C5 (amended): `Uint8FileDataStream` defines no methods of its
own (its body is `pass`), leaving `get_symbol` and `write_symbol`
abstract, so instantiating it fails with the abstract-class TypeError
and no operation can ever be invoked on an instance; every method that
does resolve on the class resolves to an inherited implementation
(`__init__`, `__enter__`, `__exit__` and `reset` to `FileDataStream`;
`get_block` and `write_block` to `DataStream`), and nothing in the class
reports a NotImplemented condition. -/
theorem uint8_unrealized_backend :
    uint8FileDataStreamMethods = [] ∧
    uint8UnimplementedAbstract = [.get_symbol, .write_symbol] ∧
    instantiateUint8 = .error .typeError ∧
    uint8Resolve .ctor = some .fileDataStream ∧
    uint8Resolve .scopeEnter = some .fileDataStream ∧
    uint8Resolve .scopeExit = some .fileDataStream ∧
    uint8Resolve .reset = some .fileDataStream ∧
    uint8Resolve .get_block = some .dataStream ∧
    uint8Resolve .write_block = some .dataStream ∧
    uint8Resolve .get_symbol = none ∧
    uint8Resolve .write_symbol = none := by
  refine ⟨rfl, by decide, rfl, ?_, ?_, ?_, ?_, ?_, ?_, ?_, ?_⟩ <;> decide

/-- Claim C6 counterexample: at the concrete input where permissions is
the append mode flag,
(append mode), `FileDataStream` construction succeeds and stores the
flag verbatim, while a constructor that restricted the mode flag to
{read, write} as the claim states would reject it. -/
theorem mode_restriction_counterexample :
    FileDataStream.init "f" "a" =
      { file_path := "f", permissions := "a", file_obj := none,
        closes := 0 } ∧
    (FileDataStream.init "f" "a").permissions = "a" ∧
    FileDataStream.initSpecModeRestricted "f" "a" =
      .error .invalidInput := by
  refine ⟨rfl, rfl, ?_⟩
  unfold FileDataStream.initSpecModeRestricted
  rw [if_neg (by decide)]

/-- Claim C6 (amended): `FileDataStream` construction accepts any
permissions string with no validation — it stores the target path and
the mode flag verbatim (the flag is only interpreted later, when scope
entry opens the file), and the default mode is read. -/
theorem mode_stored_verbatim (p m : String) :
    FileDataStream.init p m =
      { file_path := p, permissions := m, file_obj := none,
        closes := 0 } ∧
    FileDataStream.initDefault p = FileDataStream.init p "r" :=
  ⟨rfl, rfl⟩

end SCLStream
